import Mathlib

/-!
# Verification of the DexPaprika plugin's normalization layer

Shallow embedding of the response-normalization and request-construction
logic of the `plugin-dexpaprika` repository (TypeScript), together with
theorems settling the frozen claims about it.

The repository contains several near-identical variants of each endpoint
operation:

* the "old-style" parameter-object actions in `src/actions/index.ts`
  (`execute` functions);
* the plain exported functions plus a second, debug-instrumented copy in
  the unnamed source file (referred to here as `part_001`);
* the schema-validated `Action` handlers (`GET_TOP_POOLS` in `part_000`,
  `GET_NETWORK_POOLS`, `GET_DEX_POOLS`, `GET_POOL_DETAILS`,
  `GET_NETWORK_DEXES`, `SEARCH` in `src/actions/*.ts`).

Each Lean definition below is translated from one specific variant and is
named after it.  JavaScript semantics that matter here (truthiness of `0`,
`undefined` interpolation, `slice`, `substring`, first-occurrence
`String.replace`, default parameters) are modelled explicitly.
-/

namespace DexPaprika

/-! ## JavaScript-semantics helpers -/

/-- JS truthiness of a possibly-absent numeric field (`undefined`/`null`
map to `none`): `0` is falsy, every other number is truthy.  A rational is
zero exactly when its numerator is, and the numerator test reduces in the
kernel.  (NaN is not representable in the rational model; no claim depends
on it.) -/
def jsTruthyNum : Option ℚ → Bool
  | none => false
  | some v => v.num != 0

/-- `0 < q`, computed on the numerator so that it reduces in the kernel. -/
def ratPos (q : ℚ) : Bool :=
  0 < q.num

/-- `q * 100` (the percent scaling `p * 100` used by every change and fee
formatter), built with `mkRat` so that it reduces in the kernel. -/
def times100 (q : ℚ) : ℚ :=
  mkRat (q.num * 100) q.den

/-- JS `s1 || s2` for strings: the empty string is falsy. -/
def jsOrString (s fb : String) : String :=
  if s = "" then fb else s

/-- JS template-literal rendering of a possibly-`undefined` string. -/
def jsOptStr : Option String → String
  | none => "undefined"
  | some s => s

/-- JS template-literal rendering of a possibly-`undefined` number
(used for `error.response?.status`). -/
def jsOptNat : Option Nat → String
  | none => "undefined"
  | some n => toString n

/-- Left-pad a string with `'0'` up to length `n`. -/
def padZeros (n : Nat) (s : String) : String :=
  String.mk (List.replicate (n - s.length) '0') ++ s

/-- The integer chosen by JS `toFixed f`: the multiple of `10^(-f)`
closest to `q`, ties resolved towards the larger value, i.e.
`⌊q * 10 ^ f + 1 / 2⌋`, computed on the numerator and denominator so that
it reduces in the kernel. -/
def toFixedInt (f : Nat) (q : ℚ) : ℤ :=
  Int.fdiv (2 * q.num * 10 ^ f + q.den) (2 * q.den)

/-- JS `Number.prototype.toFixed f` on the rational model of the number. -/
def jsToFixed (f : Nat) (q : ℚ) : String :=
  let n := toFixedInt f q
  let sign := if n < 0 then "-" else ""
  let m := n.natAbs
  let ip := m / 10 ^ f
  let fp := m % 10 ^ f
  sign ++ toString ip ++ (if f = 0 then "" else "." ++ padZeros f (toString fp))

/-- Split a list into chunks of three (used from the least-significant
digit for thousands grouping).  Structural recursion so that it reduces in
the kernel. -/
def chunk3 : List Char → List (List Char)
  | [] => []
  | [a] => [[a]]
  | [a, b] => [[a, b]]
  | a :: b :: c :: rest => [a, b, c] :: chunk3 rest

/-- Insert `','` thousands separators into the decimal digits of a natural
number, as `toLocaleString('en-US')` does for the integer part. -/
def groupDigits (n : Nat) : String :=
  let rev := (toString n).toList.reverse
  String.intercalate "," (((chunk3 rev).map List.reverse).reverse.map String.mk)

/-- Remove trailing `'0'` characters (for default `toLocaleString`
fraction rendering). -/
def stripTrailingZeros (s : String) : String :=
  String.mk (s.toList.reverse.dropWhile (· = '0')).reverse

/-- JS `x.toLocaleString('en-US', { minimumFractionDigits: f,
maximumFractionDigits: f })`: grouped integer part, exactly `f` fraction
digits. -/
def jsToLocaleFixed (f : Nat) (q : ℚ) : String :=
  let n := toFixedInt f q
  let sign := if n < 0 then "-" else ""
  let m := n.natAbs
  sign ++ groupDigits (m / 10 ^ f) ++
    (if f = 0 then "" else "." ++ padZeros f (toString (m % 10 ^ f)))

/-- JS `x.toLocaleString()` with no options: grouped integer part, up to
three fraction digits, trailing zeros dropped. -/
def jsToLocaleDefault (q : ℚ) : String :=
  let n := toFixedInt 3 q
  let sign := if n < 0 then "-" else ""
  let m := n.natAbs
  let fp := m % 10 ^ 3
  sign ++ groupDigits (m / 10 ^ 3) ++
    (if fp = 0 then "" else "." ++ stripTrailingZeros (padZeros 3 (toString fp)))

/-- JS `Number(x).toLocaleString()` where `x` may be absent:
`Number(undefined)` is `NaN`, which renders as `"NaN"`. -/
def jsNumberLocale : Option ℚ → String
  | none => "NaN"
  | some q => jsToLocaleDefault q

/-- JS `String.prototype.trim`. -/
def jsTrim (s : String) : String :=
  String.mk ((s.toList.dropWhile Char.isWhitespace).reverse.dropWhile
    Char.isWhitespace).reverse

/-! ## Data model (from `src/types.ts` / the shapes the handlers read) -/

/-- A token as read by the formatters (`tokens[i].name/symbol/...`). -/
structure Token where
  id : String
  name : String
  symbol : String
  chain : String
  decimals : Nat
  price_usd : Option ℚ := none
  deriving Repr, DecidableEq

/-- A pool as read by the formatters.  Fields the upstream may omit are
`Option`. -/
structure Pool where
  id : String
  dex_name : String
  chain : String
  volume_usd : Option ℚ := none
  price_usd : Option ℚ := none
  last_price_change_usd_24h : Option ℚ := none
  fee : Option ℚ := none
  transactions : Option Nat := none
  created_at : String := ""
  created_at_block_number : Nat := 0
  tokens : List Token := []
  deriving Repr, DecidableEq

/-- 0-indexed pagination metadata of list endpoints. -/
structure PageInfo where
  page : Nat
  limit : Nat
  total_items : Nat
  total_pages : Nat
  deriving Repr, DecidableEq

/-- Body of the pools list endpoints (success path of the pool-listing
operations, where `response.data.pools` is an array). -/
structure PoolsResponse where
  pools : List Pool
  page_info : PageInfo
  deriving Repr, DecidableEq

/-- A DEX entry of the search/dexes endpoints. -/
structure Dex where
  dex_name : String
  chain : String
  protocol : String
  deriving Repr, DecidableEq

/-! ## Percentage formatters (claim C2)

`getNetworkPools.ts` lines 115–117 (also `part_000` lines 112–114,
`getDexPools`/`getPoolDetails.ts` lines 101–103/530–532):

  `pool.last_price_change_usd_24h ?
     (pool.last_price_change_usd_24h * 100).toFixed(2) + "%" : "N/A"`

`part_001` `getPoolDetails` lines 1068–1070 additionally prefixes `"+"`
when the value is positive.  Both branch on JS truthiness of the field, so
the value `0` takes the `"N/A"` branch. -/

/-- The unsigned 24h-change formatter of the pool-listing handlers. -/
def listingPriceChange (p : Option ℚ) : String :=
  if jsTruthyNum p then jsToFixed 2 (times100 (p.getD (mkRat 0 1))) ++ "%"
  else "N/A"

/-- The signed 24h-change formatter of `part_001` `getPoolDetails` /
`getTokenDetails` (`+` prefix for positive values). -/
def signedPriceChange (p : Option ℚ) : String :=
  if jsTruthyNum p then
    (if ratPos (p.getD (mkRat 0 1)) then "+" else "") ++
      jsToFixed 2 (times100 (p.getD (mkRat 0 1))) ++ "%"
  else "N/A"

/-! ## Timestamp stamping (claim C5)

Every envelope computes
`new Date().toISOString().replace('T', ' at ').substring(0, 19)`.
JS `replace` with a string pattern replaces the first occurrence only, and
`substring(0, 19)` keeps the first 19 UTF-16 units (ASCII here, so the
first 19 characters). -/

/-- JS `s.replace('T', repl)`: replace the first `'T'` only. -/
def replaceFirstT (repl : List Char) : List Char → List Char
  | [] => []
  | c :: cs => if c = 'T' then repl ++ cs else c :: replaceFirstT repl cs

/-- `iso.replace('T', ' at ').substring(0, 19)` on the character list. -/
def formatTimestampChars (iso : List Char) : List Char :=
  (replaceFirstT (String.toList " at ") iso).take 19

/-- The envelope timestamp computed from the ISO string of the call's
wall-clock time. -/
def formatTimestamp (iso : String) : String :=
  String.mk (formatTimestampChars iso.toList)

/-! ## Title-casing (claim C9) -/

/-- `s.charAt(0).toUpperCase() + s.slice(1)`: the display transform
applied to *network* identifiers everywhere, e.g.
`getNetworkPools.ts` line 91. -/
def capitalizeFirst (s : String) : String :=
  match s.toList with
  | [] => ""
  | c :: cs => String.mk (c.toUpper :: cs)

/-- JS `s.split('_')` on the character list (`"".split('_')` is `[""]`,
and a trailing separator yields a trailing empty word). -/
def splitUnderscore : List Char → List (List Char)
  | [] => [[]]
  | c :: cs =>
    if c = '_' then [] :: splitUnderscore cs
    else
      match splitUnderscore cs with
      | [] => [[c]]
      | w :: ws => (c :: w) :: ws

/-- `formatDexName` (`getDexPools` section of `getPoolDetails.ts`, lines
454–457; same expression inline in `actions/index.ts` line 317): split the
*dex* identifier on `'_'`, capitalize each word, join with spaces. -/
def formatDexName (dex : String) : String :=
  String.intercalate " "
    ((splitUnderscore dex.toList).map fun w => capitalizeFirst (String.mk w))

/-- The display name computed for a network identifier. -/
def networkDisplayName (network : String) : String :=
  capitalizeFirst network

/-! ## Outbound requests (claims C3, C4, C8)

Every operation issues `client.get(path, { params })`, a single HTTP GET.
A request is modelled by its path and its query-parameter list (in the
order of the `params` object literal). -/

structure HttpRequest where
  path : String
  query : List (String × String)
  deriving Repr, DecidableEq

/-- Render a request as the URL the client sends. -/
def renderRequest (r : HttpRequest) : String :=
  r.path ++
    (if r.query.isEmpty then ""
     else "?" ++ String.intercalate "&" (r.query.map fun kv => kv.1 ++ "=" ++ kv.2))

/-- Optional parameters of the pool-listing operations (`none` = omitted
by the caller, so the destructuring default applies). -/
structure ListingParams where
  page : Option Nat := none
  limit : Option Nat := none
  orderBy : Option String := none
  sort : Option String := none
  deriving Repr

/-- `{ page = 0, limit = 10, orderBy = 'volume_usd', sort = 'desc' }`
destructuring defaults followed by
`params: { page, limit, order_by: orderBy, sort }`. -/
def poolsQuery (p : ListingParams) : List (String × String) :=
  [("page", toString (p.page.getD 0)),
   ("limit", toString (p.limit.getD 10)),
   ("order_by", p.orderBy.getD "volume_usd"),
   ("sort", p.sort.getD "desc")]

/-- `getTopPools`: `client.get('/pools', { params: ... })`. -/
def getTopPoolsRequest (p : ListingParams) : HttpRequest :=
  { path := "/pools", query := poolsQuery p }

/-- `getNetworkPools`: `client.get('/networks/NETWORK/pools', ...)`. -/
def getNetworkPoolsRequest (network : String) (p : ListingParams) : HttpRequest :=
  { path := "/networks/" ++ network ++ "/pools", query := poolsQuery p }

/-- `getDexPools`: `client.get('/networks/NETWORK/dexes/DEX/pools', ...)`. -/
def getDexPoolsRequest (network dex : String) (p : ListingParams) : HttpRequest :=
  { path := "/networks/" ++ network ++ "/dexes/" ++ dex ++ "/pools"
  , query := poolsQuery p }

/-- `getNetworkDexes`: `client.get('/networks/NETWORK/dexes', { params: { page, limit } })`. -/
def getNetworkDexesRequest (network : String) (page limit : Option Nat) : HttpRequest :=
  { path := "/networks/" ++ network ++ "/dexes"
  , query := [("page", toString (page.getD 0)), ("limit", toString (limit.getD 10))] }

/-- `getPoolDetails`: `client.get('/networks/NETWORK/pools/ADDR', { params: { inversed } })`. -/
def getPoolDetailsRequest (network poolAddress : String) (inversed : Option Bool) : HttpRequest :=
  { path := "/networks/" ++ network ++ "/pools/" ++ poolAddress
  , query := [("inversed", toString (inversed.getD false))] }

/-- `getTokenDetails`: `client.get('/networks/NETWORK/tokens/ADDR')`. -/
def getTokenDetailsRequest (network tokenAddress : String) : HttpRequest :=
  { path := "/networks/" ++ network ++ "/tokens/" ++ tokenAddress, query := [] }

/-- `getNetworks`: `client.get('/networks')`. -/
def getNetworksRequest : HttpRequest :=
  { path := "/networks", query := [] }

/-- `getStats`: `client.get('/stats')`. -/
def getStatsRequest : HttpRequest :=
  { path := "/stats", query := [] }

/-- `search`: `client.get('/search', { params: { query } })` (the direct
debug calls target the same URL with the query URL-encoded; encoding is
abstracted since all claim inputs are alphanumeric). -/
def searchRequest (query : String) : HttpRequest :=
  { path := "/search", query := [("query", query)] }

/-! ## Shared per-pool display helpers -/

/-- `pool.tokens?.[i]?.symbol || FALLBACK`: the token-slot symbol with the
`'Token1'`/`'Token2'` literal fallback used by the listing handlers. -/
def slotSymbol (tokens : List Token) (i : Nat) (fb : String) : String :=
  match tokens.get? i with
  | some t => jsOrString t.symbol fb
  | none => fb

/-- `pool.tokens.map(t => t.name + ' (' + t.symbol + ')').join(' - ')`. -/
def tokenPairText (tokens : List Token) : String :=
  String.intercalate " - " (tokens.map fun t => t.name ++ " (" ++ t.symbol ++ ")")

/-- `TOKEN0-TOKEN1` pool display name of the schema-validated listing
handlers (`part_000` lines 108–118, `getNetworkPools.ts` lines 111–121). -/
def listingPoolName (pool : Pool) : String :=
  slotSymbol pool.tokens 0 "Token1" ++ "-" ++ slotSymbol pool.tokens 1 "Token2"

/-- `typeof x === 'number' ? '$' + x.toLocaleString(min/max f digits) : 'N/A'`. -/
def dollarFixed (f : Nat) (v : Option ℚ) : String :=
  match v with
  | some q => "$" ++ jsToLocaleFixed f q
  | none => "N/A"

/-- `x ? '$' + Number(x).toLocaleString() : 'N/A'` (JS truthiness, so the
value `0` also renders `'N/A'`). -/
def truthyDollar (v : Option ℚ) : String :=
  if jsTruthyNum v then "$" ++ jsToLocaleDefault (v.getD (mkRat 0 1)) else "N/A"

/-! ## `formatPoolData` and the `part_001` pool-listing envelopes (claims C1, C10) -/

/-- One entry of `formatPoolData` (`part_001` lines 37–65). -/
structure FormattedPoolData where
  position : Nat
  id : String
  dex : String
  tokens : String
  volume : String
  price : String
  deriving Repr, DecidableEq

/-- `formatPoolData(pools, startIndex = 0)` (`part_001` lines 37–65):
positions are `startIndex + index + 1`; volume/price use 2/4 fixed
fraction digits with the `typeof === 'number'` guard. -/
def formatPoolData (pools : List Pool) (startIndex : Nat := 0) : List FormattedPoolData :=
  pools.mapIdx fun index pool =>
    { position := startIndex + index + 1
    , id := pool.id
    , dex := pool.dex_name
    , tokens := tokenPairText pool.tokens
    , volume := dollarFixed 2 pool.volume_usd
    , price := dollarFixed 4 pool.price_usd }

/-- `top_pool_summary` of the `part_001` listing envelopes (note `name`
is set from the formatted entry's `id`). -/
structure TopPoolSummary where
  name : String
  dex : String
  tokens : String
  volume : String
  price : String
  deriving Repr, DecidableEq

/-- `formatted_response` of the `part_001` pool-listing operations. -/
structure ListingFormatted where
  title : String
  timestamp : String
  pools : List FormattedPoolData
  total_pools : Nat
  top_pool_summary : Option TopPoolSummary
  deriving Repr, DecidableEq

/-- The `raw_data` object built by the `part_001` pool-listing
operations: `{ pools: topPools, page_info: response.data.page_info }`. -/
structure RawPoolsData where
  pools : List Pool
  page_info : PageInfo
  deriving Repr, DecidableEq

/-- The resolved envelope of the `part_001` pool-listing operations. -/
structure ListingEnvelope where
  formatted_response : ListingFormatted
  raw_data : RawPoolsData
  deriving Repr, DecidableEq

/-- Success path of `part_001` `getTopPools` (lines 113–142), given the
upstream body and the stamped timestamp: `topPools` is
`response.data.pools.slice(0, 5)` and `raw_data` is built from it. -/
def getTopPoolsEnvelope (iso : String) (resp : PoolsResponse) : ListingEnvelope :=
  let topPools := resp.pools.take 5
  let formattedPools := formatPoolData topPools
  { formatted_response :=
    { title := "Top " ++ toString formattedPools.length ++ " Pools on All networks"
    , timestamp := formatTimestamp iso
    , pools := formattedPools
    , total_pools := resp.pools.length
    , top_pool_summary :=
        match formattedPools with
        | [] => none
        | f :: _ =>
          some { name := f.id, dex := f.dex, tokens := f.tokens
               , volume := f.volume, price := f.price } }
  , raw_data := { pools := topPools, page_info := resp.page_info } }

/-- Success path of `part_001` `getNetworkPools` (lines 154–203); only
the title differs from `getTopPools`. -/
def getNetworkPoolsEnvelope (network iso : String) (resp : PoolsResponse) : ListingEnvelope :=
  let topPools := resp.pools.take 5
  let formattedPools := formatPoolData topPools
  { formatted_response :=
    { title := "Top " ++ toString formattedPools.length ++ " Pools on " ++
        networkDisplayName network
    , timestamp := formatTimestamp iso
    , pools := formattedPools
    , total_pools := resp.pools.length
    , top_pool_summary :=
        match formattedPools with
        | [] => none
        | f :: _ =>
          some { name := f.id, dex := f.dex, tokens := f.tokens
               , volume := f.volume, price := f.price } }
  , raw_data := { pools := topPools, page_info := resp.page_info } }

/-! ## Old-style `getTopPools.execute` (`actions/index.ts` lines 147–185) -/

/-- One formatted pool of the old-style `getTopPools.execute`
(`actions/index.ts` lines 166–173).  The 24h change has no truthiness
guard there: an absent field renders `"NaN%"`. -/
structure OldTopPoolEntry where
  name : String
  dex : String
  network : String
  volume_usd : String
  price_usd : String
  price_change_24h : String
  deriving Repr, DecidableEq

/-- `(pool.last_price_change_usd_24h * 100).toFixed(2) + '%'` without a
guard: `undefined * 100` is `NaN`. -/
def oldPriceChange (p : Option ℚ) : String :=
  match p with
  | some v => jsToFixed 2 (times100 v) ++ "%"
  | none => "NaN%"

/-- `formatted_response` of the old-style `getTopPools.execute`. -/
structure OldTopPoolsFormatted where
  title : String
  timestamp : String
  pools : List OldTopPoolEntry
  page_info : PageInfo
  deriving Repr, DecidableEq

/-- Resolved envelope of the old-style `getTopPools.execute`: `raw_data`
is `response.data` verbatim. -/
structure OldTopPoolsEnvelope where
  formatted_response : OldTopPoolsFormatted
  raw_data : PoolsResponse
  deriving Repr, DecidableEq

/-- Old-style `getTopPools.execute` success path (`actions/index.ts`
lines 160–177): formats *all* pools and returns the whole body as
`raw_data`. -/
def oldGetTopPoolsEnvelope (iso : String) (resp : PoolsResponse) : OldTopPoolsEnvelope :=
  { formatted_response :=
    { title := "Top Liquidity Pools Across All Networks"
    , timestamp := formatTimestamp iso
    , pools := resp.pools.map fun pool =>
        { name := slotSymbol pool.tokens 0 "Token1" ++ " - " ++
            slotSymbol pool.tokens 1 "Token2"
        , dex := pool.dex_name
        , network := pool.chain
        , volume_usd := "$" ++ jsNumberLocale pool.volume_usd
        , price_usd := "$" ++ jsNumberLocale pool.price_usd
        , price_change_24h := oldPriceChange pool.last_price_change_usd_24h }
    , page_info := resp.page_info }
  , raw_data := resp }

/-! ## `GET_NETWORK_POOLS` handler formatting (claims C2, C10) -/

/-- One formatted pool of the `GET_NETWORK_POOLS` handler
(`getNetworkPools.ts` lines 110–127). -/
structure NpFormattedPool where
  position : Nat
  name : String
  dex : String
  volume : String
  price : String
  price_change_24h : String
  deriving Repr, DecidableEq

/-- `pools.map((pool, index) => ...)` of the `GET_NETWORK_POOLS` handler:
`position` is `index + 1`, independent of the requested page. -/
def npFormatPools (pools : List Pool) : List NpFormattedPool :=
  pools.mapIdx fun index pool =>
    { position := index + 1
    , name := listingPoolName pool
    , dex := pool.dex_name
    , volume := "$" ++ jsNumberLocale pool.volume_usd
    , price := "$" ++ jsNumberLocale pool.price_usd
    , price_change_24h := listingPriceChange pool.last_price_change_usd_24h }

/-- The callback `content` of the `GET_NETWORK_POOLS` handler
(`getNetworkPools.ts` lines 149–159): formatted pools next to the
untouched `page_info`. -/
structure NpContent where
  network : String
  timestamp : String
  pools : List NpFormattedPool
  page_info : PageInfo
  order_by : String
  sort : String
  deriving Repr, DecidableEq

/-- Success path of the `GET_NETWORK_POOLS` handler, given the upstream
body. -/
def npHandlerContent (network iso orderBy sort : String) (resp : PoolsResponse) : NpContent :=
  { network := networkDisplayName network
  , timestamp := formatTimestamp iso
  , pools := npFormatPools resp.pools
  , page_info := resp.page_info
  , order_by := orderBy
  , sort := sort }

/-! ## `GET_POOL_DETAILS` handler formatting (claim C6) -/

/-- JS template interpolation of `tokenX?.name` / `tokenX?.symbol` where
the slot itself may be `undefined`: `"NAME (SYMBOL)"`, with `"undefined"`
for each absent part. -/
def tokenSlotTpl (slot : Option Token) : String :=
  jsOptStr (slot.map Token.name) ++ " (" ++ jsOptStr (slot.map Token.symbol) ++ ")"

/-- `poolTitle` of the `GET_POOL_DETAILS` handler (`getPoolDetails.ts`
line 110): built from `pool.tokens?.[0]` and `pool.tokens?.[1]` with no
`'Token1'`/`'Token2'` fallback. -/
def gpdPoolTitle (pool : Pool) : String :=
  tokenSlotTpl (pool.tokens.get? 0) ++ " - " ++ tokenSlotTpl (pool.tokens.get? 1)

/-- `pool.fee ? (pool.fee * 100).toFixed(3) + '%' : 'N/A'`
(`getPoolDetails.ts` line 104). -/
def gpdFee (fee : Option ℚ) : String :=
  if jsTruthyNum fee then jsToFixed 3 (times100 (fee.getD (mkRat 0 1))) ++ "%"
  else "N/A"

/-- One entry of `formatted_response.tokens` of the `GET_POOL_DETAILS`
handler (`getPoolDetails.ts` lines 161–174): each field is read through
`tokenX?.`, so an absent slot yields an entry of absent fields, not a
fallback token. -/
structure GpdTokenEntry where
  name : Option String
  symbol : Option String
  address : Option String
  decimals : Option Nat
  deriving Repr, DecidableEq

/-- `formatted_response` of the `GET_POOL_DETAILS` handler callback
(`getPoolDetails.ts` lines 149–175), restricted to the fields the claims
read. -/
structure GpdFormatted where
  title : String
  network : String
  dex : String
  address : String
  price : String
  price_change_24h : String
  fee : String
  transactions : String
  tokens : List GpdTokenEntry
  deriving Repr, DecidableEq

/-- Success path of the `GET_POOL_DETAILS` handler: total for any
`tokens` array (the handler maps over `pool.tokens` and dereferences the
two leading slots only through `?.`). -/
def gpdFormatted (network poolAddress : String) (pool : Pool) : GpdFormatted :=
  let token0 := pool.tokens.get? 0
  let token1 := pool.tokens.get? 1
  { title := gpdPoolTitle pool
  , network := networkDisplayName network
  , dex := pool.dex_name
  , address := poolAddress
  , price := truthyDollar pool.price_usd
  , price_change_24h := listingPriceChange pool.last_price_change_usd_24h
  , fee := gpdFee pool.fee
  , transactions := (pool.transactions.map groupDigits).getD "N/A"
  , tokens :=
      [ { name := token0.map Token.name, symbol := token0.map Token.symbol
        , address := token0.map Token.id, decimals := token0.map Token.decimals }
      , { name := token1.map Token.name, symbol := token1.map Token.symbol
        , address := token1.map Token.id, decimals := token1.map Token.decimals } ] }

/-! ## `part_001` `getPoolDetails` envelope (claim C2, signed variant) -/

/-- `formatted_response` of `part_001` `getPoolDetails` (lines
1056–1074), restricted to the fields the claims read.  The 24h change is
the signed formatter; `fee` uses the null-guarded unrounded rendering. -/
structure PdFormatted where
  title : String
  pool_id : String
  network : String
  dex : String
  tokens : String
  price : String
  volume_24h : String
  fee : String
  price_change_24h : String
  deriving Repr, DecidableEq

/-- JS default number-to-string (shortest decimal) modelled for decimal
fractions of up to six places: integer part, then the fraction with
trailing zeros stripped. -/
def ratDecimalString (q : ℚ) : String :=
  let n := toFixedInt 6 q
  let sign := if n < 0 then "-" else ""
  let m := n.natAbs
  let fp := m % 10 ^ 6
  sign ++ toString (m / 10 ^ 6) ++
    (if fp = 0 then "" else "." ++ stripTrailingZeros (padZeros 6 (toString fp)))

/-- `pool.fee !== null ? (pool.fee * 100) + '%' : 'N/A'` (`part_001` line
1067): presence-guarded (unlike the truthiness guards elsewhere), with the
default unrounded number rendering. -/
def pdFee (fee : Option ℚ) : String :=
  match fee with
  | some f => ratDecimalString (times100 f) ++ "%"
  | none => "N/A"

/-- Success path of `part_001` `getPoolDetails` (lines 1042–1075). -/
def pdFormatted (network : String) (pool : Pool) : PdFormatted :=
  let tokenSymbols := jsOrString (tokenPairText pool.tokens) "Unknown"
  { title := "Pool Details: " ++ tokenSymbols
  , pool_id := pool.id
  , network := networkDisplayName network
  , dex := pool.dex_name
  , tokens := tokenSymbols
  , price := dollarFixed 4 pool.price_usd
  , volume_24h := dollarFixed 2 pool.volume_usd
  , fee := pdFee pool.fee
  , price_change_24h := signedPriceChange pool.last_price_change_usd_24h }

/-! ## Error classification (claim C7) -/

/-- An axios error as the catch blocks read it: `error.response?.status`
(absent for transport-level failures), `error.response?.data?.error`, and
`error.message`. -/
structure AxiosHttpError where
  status : Option Nat
  dataError : Option String
  message : String
  deriving Repr, DecidableEq

/-- `o || fb` where `o` is a possibly-absent string (absent or empty means
falsy). -/
def jsOrOpt (o : Option String) (fb : String) : String :=
  match o with
  | some s => jsOrString s fb
  | none => fb

/-- Error message of the old-style executes and the plain `part_001`
functions (`actions/index.ts` lines 110–113, `part_001` lines 96–99):
one generic template for every status. -/
def oldActionErrorMsg (e : AxiosHttpError) : String :=
  "DexPaprika API error: " ++ jsOptNat e.status ++ " - " ++ jsOrOpt e.dataError e.message

/-- Error message of the `GET_NETWORK_DEXES` handler (`search.ts` lines
398–405 of the concatenated file): 404 and 429 are classified
specifically. -/
def networkDexesHandlerErrorMsg (e : AxiosHttpError) : String :=
  if e.status = some 404 then
    "Network not found. Please check the network ID and try again."
  else if e.status = some 429 then
    "Rate limit exceeded. Please try again later."
  else
    "API error: " ++ jsOptNat e.status ++ " - " ++ jsOrOpt e.dataError e.message

/-- `statusCode` put into the handler's error callback content
(`search.ts` line 415): `error.response?.status` for axios errors. -/
def networkDexesHandlerStatusCode (e : AxiosHttpError) : Option Nat :=
  e.status

/-! ## The `search` operations (claims C3, C4)

`part_001`'s second `search` (lines 1139–1286) is the validated, debug-
instrumented variant: after validating the query it first issues a direct
`axios.get` whose outcome is only logged, then the client call; if the
client call fails with an axios error it issues a *fallback* direct call
and, when that succeeds, resolves with the fallback's bare body.  The
old-style `search.execute` (`actions/index.ts` lines 499–546) performs no
validation and issues exactly one call. -/

/-- Body of a `/search` 200 response. -/
structure SearchBody where
  tokens : List Token
  pools : List Pool
  dexes : List Dex
  deriving Repr, DecidableEq

/-- Outcome of one HTTP call as the operation observes it. -/
inductive HttpResult where
  | ok (body : SearchBody)
  | fail (e : AxiosHttpError)
  deriving Repr, DecidableEq

/-- A `{ count, top_results }` category of the formatted search
response. -/
structure SearchCategory (α : Type) where
  count : Nat
  top_results : List α
  deriving Repr, DecidableEq

/-- Token entry of the `part_001` formatted search response (lines
1193–1202). -/
structure SearchTokenEntry where
  id : String
  name : String
  symbol : String
  network : String
  price : String
  deriving Repr, DecidableEq

/-- Pool entry of the `part_001` formatted search response (lines
1204–1214). -/
structure SearchPoolEntry where
  position : Nat
  id : String
  dex : String
  tokens : String
  volume : String
  network : String
  deriving Repr, DecidableEq

/-- Dex entry of the `part_001` formatted search response (lines
1216–1220). -/
structure SearchDexEntry where
  name : String
  network : String
  protocol : String
  deriving Repr, DecidableEq

/-- `formatted_response` of `part_001` `search`. -/
structure SearchFormatted where
  title : String
  timestamp : String
  tokens : SearchCategory SearchTokenEntry
  pools : SearchCategory SearchPoolEntry
  dexes : SearchCategory SearchDexEntry
  deriving Repr, DecidableEq

/-- Resolved envelope of `part_001` `search`: `raw_data` is the whole
body. -/
structure SearchEnvelope where
  formatted_response : SearchFormatted
  raw_data : SearchBody
  deriving Repr, DecidableEq

/-- `x ? '$' + x.toLocaleString(min/max f digits) : 'N/A'` (truthiness
guard on the numeric field). -/
def truthyDollarFixed (f : Nat) (v : Option ℚ) : String :=
  if jsTruthyNum v then "$" ++ jsToLocaleFixed f (v.getD (mkRat 0 1)) else "N/A"

/-- The formatted envelope `part_001` `search` builds from a 200 body
(lines 1188–1240): each category capped at the top 3 for display while
`raw_data` keeps the unfiltered body. -/
def searchFormat (query iso : String) (body : SearchBody) : SearchEnvelope :=
  { formatted_response :=
    { title := "Search Results for \"" ++ query ++ "\""
    , timestamp := formatTimestamp iso
    , tokens :=
      { count := body.tokens.length
      , top_results := (body.tokens.take 3).map fun token =>
          { id := token.id, name := token.name, symbol := token.symbol
          , network := token.chain
          , price := truthyDollarFixed 6 token.price_usd } }
    , pools :=
      { count := body.pools.length
      , top_results := (body.pools.take 3).mapIdx fun index pool =>
          { position := index + 1, id := pool.id, dex := pool.dex_name
          , tokens := tokenPairText pool.tokens
          , volume := truthyDollarFixed 2 pool.volume_usd
          , network := pool.chain } }
    , dexes :=
      { count := body.dexes.length
      , top_results := (body.dexes.take 3).map fun dex =>
          { name := dex.dex_name, network := dex.chain, protocol := dex.protocol } } }
  , raw_data := body }

/-- How `part_001` `search` resolves. -/
inductive SearchOutcome where
  | envelope (e : SearchEnvelope)
  | bare (b : SearchBody)
  | failure (message : String)
  deriving Repr, DecidableEq

/-- The outer catch of `part_001` `search` (lines 1274–1285): a
search-tailored message for 400, otherwise the generic template with a
search suffix. -/
def searchOuterErrorMsg (e : AxiosHttpError) : String :=
  if e.status = some 400 then
    "DexPaprika search error: " ++
      jsOrOpt e.dataError
        "The search query is invalid or too short (min 3 characters required)" ++
      " - To search DexPaprika, try using a more specific query with at least 3 characters. For tokens, try including the full name or symbol."
  else
    "DexPaprika API error: " ++ jsOptNat e.status ++ " - " ++
      jsOrOpt e.dataError e.message ++
      ". Please try a different search term or check your network connection."

/-- `part_001` `search` (lines 1139–1286), as the pair `(requests issued
in order, outcome)`.  `direct`, `client` and `fallback` are the outcomes
the transport would give the three possible calls.  The direct debug
call's outcome is only logged; a client-call failure triggers the fallback
direct call, whose success resolves the operation with the bare fallback
body ("Using fallback result"). -/
def part1SearchRun (query iso : String) (direct client fallback : HttpResult) :
    List HttpRequest × SearchOutcome :=
  if query = "" ∨ jsTrim query = "" then
    ([], .failure "Unexpected error: Search query cannot be empty. Please try again with a different search term.")
  else if (jsTrim query).length < 3 then
    ([], .failure "Unexpected error: Search query must be at least 3 characters long. Please try again with a different search term.")
  else
    match direct, client with
    | _, .ok body =>
      ([searchRequest query, searchRequest query], .envelope (searchFormat query iso body))
    | _, .fail e =>
      match fallback with
      | .ok body =>
        ([searchRequest query, searchRequest query, searchRequest query], .bare body)
      | .fail _ =>
        ([searchRequest query, searchRequest query, searchRequest query],
          .failure (searchOuterErrorMsg e))

/-- `formatted_response` of the old-style `search.execute`
(`actions/index.ts` lines 517–535): the top results are the raw
`slice(0, 3)` prefixes. -/
structure OldSearchFormatted where
  title : String
  timestamp : String
  tokens : SearchCategory Token
  pools : SearchCategory Pool
  dexes : SearchCategory Dex
  deriving Repr, DecidableEq

/-- Resolved envelope of the old-style `search.execute`. -/
structure OldSearchEnvelope where
  formatted_response : OldSearchFormatted
  raw_data : SearchBody
  deriving Repr, DecidableEq

/-- How the old-style `search.execute` resolves. -/
inductive OldSearchOutcome where
  | success (e : OldSearchEnvelope)
  | failure (message : String)
  deriving Repr, DecidableEq

/-- Old-style `search.execute` (`actions/index.ts` lines 499–546): no
validation — exactly one call for *any* query, including the empty one. -/
def oldSearchRun (query iso : String) (client : HttpResult) :
    List HttpRequest × OldSearchOutcome :=
  ([searchRequest query],
    match client with
    | .ok body =>
      .success
        { formatted_response :=
          { title := "Search Results for \"" ++ query ++ "\""
          , timestamp := formatTimestamp iso
          , tokens := { count := body.tokens.length, top_results := body.tokens.take 3 }
          , pools := { count := body.pools.length, top_results := body.pools.take 3 }
          , dexes := { count := body.dexes.length, top_results := body.dexes.take 3 } }
        , raw_data := body }
    | .fail e => .failure (oldActionErrorMsg e))

/-! ## Requests issued per invocation (claim C3)

Every operation other than `part_001`'s validated `search` contains
exactly one `client.get` call, and its `catch` block rethrows a
normalized error without issuing another request; so the list of requests
an invocation issues is a singleton, whatever the transport outcome. -/

/-- Requests issued by one `getNetworks` invocation. -/
def getNetworksRequests : List HttpRequest :=
  [getNetworksRequest]

/-- Requests issued by one `getNetworkDexes` invocation. -/
def getNetworkDexesRequests (network : String) (page limit : Option Nat) : List HttpRequest :=
  [getNetworkDexesRequest network page limit]

/-- Requests issued by one `getTopPools` invocation. -/
def getTopPoolsRequests (p : ListingParams) : List HttpRequest :=
  [getTopPoolsRequest p]

/-- Requests issued by one `getNetworkPools` invocation. -/
def getNetworkPoolsRequests (network : String) (p : ListingParams) : List HttpRequest :=
  [getNetworkPoolsRequest network p]

/-- Requests issued by one `getDexPools` invocation. -/
def getDexPoolsRequests (network dex : String) (p : ListingParams) : List HttpRequest :=
  [getDexPoolsRequest network dex p]

/-- Requests issued by one `getPoolDetails` invocation. -/
def getPoolDetailsRequests (network poolAddress : String) (inversed : Option Bool) : List HttpRequest :=
  [getPoolDetailsRequest network poolAddress inversed]

/-- Requests issued by one `getTokenDetails` invocation. -/
def getTokenDetailsRequests (network tokenAddress : String) : List HttpRequest :=
  [getTokenDetailsRequest network tokenAddress]

/-- Requests issued by one `getStats` invocation. -/
def getStatsRequests : List HttpRequest :=
  [getStatsRequest]

/-! ## Substring containment (for "message contains ...") -/

/-- `needle` is a prefix of `hay` (boolean, structurally recursive). -/
def startsList (needle hay : List Char) : Bool :=
  match needle, hay with
  | [], _ => true
  | _ :: _, [] => false
  | n :: ns, h :: hs => n == h && startsList ns hs

/-- `needle` occurs contiguously in `hay` (JS `String.includes`). -/
def containsSub (needle : List Char) : List Char → Bool
  | [] => startsList needle []
  | h :: hs => startsList needle (h :: hs) || containsSub needle hs

/-! ## Concrete sample data used by counterexamples and witnesses -/

/-- The ETH token of the repository's own test fixtures. -/
def ethToken : Token :=
  { id := "eth", name := "Ethereum", symbol := "ETH", chain := "ethereum", decimals := 18 }

/-- The USDC token of the repository's own test fixtures. -/
def usdcToken : Token :=
  { id := "usdc", name := "USD Coin", symbol := "USDC", chain := "ethereum", decimals := 6 }

/-- A well-formed pool with a full token pair. -/
def samplePool (k : Nat) : Pool :=
  { id := "pool" ++ toString k, dex_name := "Uniswap V3", chain := "ethereum"
  , tokens := [ethToken, usdcToken] }

/-- A well-formed upstream 200 body holding six pools. -/
def sampleResp6 : PoolsResponse :=
  { pools := (List.range 6).map samplePool
  , page_info := { page := 0, limit := 10, total_items := 6, total_pages := 1 } }

/-- A pool whose `tokens` array has a single entry. -/
def onePool : Pool :=
  { id := "pool1", dex_name := "Uniswap V3", chain := "ethereum", tokens := [ethToken] }

/-- A pool whose `tokens` array is empty. -/
def noTokenPool : Pool :=
  { id := "pool0", dex_name := "Uniswap V3", chain := "ethereum" }

/-- An empty (but well-formed) search body. -/
def emptyBody : SearchBody :=
  { tokens := [], pools := [], dexes := [] }

/-- An axios 404 with no upstream error body: `error.message` is the
axios library's standard text. -/
def err404 : AxiosHttpError :=
  { status := some 404, dataError := none, message := "Request failed with status code 404" }

/-- An axios 500 with no upstream error body. -/
def err500 : AxiosHttpError :=
  { status := some 500, dataError := none, message := "Request failed with status code 500" }

/-- A sample ISO instant as produced by `Date.prototype.toISOString`. -/
def isoSample : String := "2026-10-11T12:34:56.789Z"

/-! # Helper lemmas -/

/-- `replaceFirstT` walks past a `'T'`-free prefix and replaces the first
`'T'`. -/
theorem replaceFirstT_past (repl d rest : List Char) (hT : 'T' ∉ d) :
    replaceFirstT repl (d ++ 'T' :: rest) = d ++ (repl ++ rest) := by
  induction d with
  | nil => simp [replaceFirstT]
  | cons c cs ih =>
      have hc : c ≠ 'T' := fun h => hT (h ▸ List.mem_cons_self c cs)
      have hcs : 'T' ∉ cs := fun h => hT (List.mem_cons_of_mem _ h)
      simp [replaceFirstT, hc, ih hcs]

/-- `splitUnderscore` peels a separator after an underscore-free word. -/
theorem splitUnderscore_append (a b : List Char) (ha : '_' ∉ a) :
    splitUnderscore (a ++ '_' :: b) = a :: splitUnderscore b := by
  induction a with
  | nil => simp [splitUnderscore]
  | cons c cs ih =>
      have hc : c ≠ '_' := fun h => ha (h ▸ List.mem_cons_self c cs)
      have hcs : '_' ∉ cs := fun h => ha (List.mem_cons_of_mem _ h)
      simp [splitUnderscore, hc, ih hcs]

/-- `splitUnderscore` of an underscore-free word is that single word. -/
theorem splitUnderscore_no_sep (a : List Char) (ha : '_' ∉ a) :
    splitUnderscore a = [a] := by
  induction a with
  | nil => rfl
  | cons c cs ih =>
      have hc : c ≠ '_' := fun h => ha (h ▸ List.mem_cons_self c cs)
      have hcs : '_' ∉ cs := fun h => ha (List.mem_cons_of_mem _ h)
      simp [splitUnderscore, hc, ih hcs]

/-- A token slot beyond the array renders as the fallback name. -/
theorem slotSymbol_of_none (tokens : List Token) (i : Nat) (fb : String)
    (h : tokens.get? i = none) : slotSymbol tokens i fb = fb := by
  unfold slotSymbol
  rw [h]

/-- Positions of a `mapIdx`-style formatter, shifted by a start index. -/
theorem mapIdx_positions {α β : Type} (l : List α) (f : Nat → α → β) (proj : β → Nat)
    (h : ∀ i a, proj (f i a) = i + 1) :
    (l.mapIdx f).map proj = (List.range l.length).map (· + 1) := by
  rw [List.mapIdx_eq_enum_map, List.map_map, ← List.enum_map_fst l, List.map_map]
  exact List.map_congr_left fun a _ => h a.1 a.2

/-! # Claim theorems -/

/-- C2 (counterexample): a pool whose `last_price_change_usd_24h` is
present with value exactly `0` formats its 24h change as `"N/A"`, not the
`"0.00%"` the claim requires (the guard is JS truthiness, and `0` is
falsy); `"0.00%"` is what the `toFixed` path would have produced. -/
theorem zero_change_renders_na :
    listingPriceChange (some (mkRat 0 1)) = "N/A" ∧
    signedPriceChange (some (mkRat 0 1)) = "N/A" ∧
    listingPriceChange (some (mkRat 0 1)) ≠ "0.00%" ∧
    jsToFixed 2 (times100 (mkRat 0 1)) ++ "%" = "0.00%" := by
  decide

/-- C2 (amended): the 24h-change formatters render `"N/A"` both when the
field is absent *and* when its value is exactly `0` (the sentinel is JS
falsiness, not absence); a present nonzero value `p` renders as
`(p*100).toFixed(2) + "%"`, with a `"+"` prefix in the signed variant when
`p > 0`.  (`p.num ≠ 0` is `p ≠ 0` stated on the numerator.) -/
theorem price_change_formatting (p : ℚ) :
    listingPriceChange none = "N/A" ∧
    signedPriceChange none = "N/A" ∧
    listingPriceChange (some (mkRat 0 1)) = "N/A" ∧
    (p.num ≠ 0 → listingPriceChange (some p) = jsToFixed 2 (times100 p) ++ "%") ∧
    (p.num ≠ 0 →
      signedPriceChange (some p) =
        (if ratPos p then "+" else "") ++ jsToFixed 2 (times100 p) ++ "%") := by
  refine ⟨rfl, rfl, by decide, fun h => ?_, fun h => ?_⟩ <;>
    simp [listingPriceChange, signedPriceChange, jsTruthyNum, h]

/-- C2 (witness): the amended rule applied at `p = 0.0215`, which renders
`"2.15%"` / `"+2.15%"`. -/
theorem price_change_formatting_witness :
    listingPriceChange (some (mkRat 215 10000)) =
      jsToFixed 2 (times100 (mkRat 215 10000)) ++ "%" ∧
    listingPriceChange (some (mkRat 215 10000)) = "2.15%" ∧
    signedPriceChange (some (mkRat 215 10000)) = "+2.15%" :=
  ⟨(price_change_formatting (mkRat 215 10000)).2.2.2.1 (by decide), by decide, by decide⟩

/-- C7 (counterexample): the old-style `getNetworkDexes.execute`
(`actions/index.ts` lines 108–114) rejects a 404 with the generic
`"DexPaprika API error: 404 - ..."` message, which contains no
`"not found"` when the upstream supplies no error body. -/
theorem old_style_404_message_generic :
    oldActionErrorMsg err404 =
      "DexPaprika API error: 404 - Request failed with status code 404" ∧
    containsSub "not found".toList (oldActionErrorMsg err404).toList = false := by
  decide

/-- C7 (amended): the schema-validated `GET_NETWORK_DEXES` handler
classifies a 404 as the fixed `"Network not found. ..."` message — which
contains `"not found"` and names the network — and exposes status code
404 in the callback content; the old-style execute only rethrows the
generic `"DexPaprika API error: 404 - ..."` template. -/
theorem network_dexes_404_classified (e : AxiosHttpError) (h : e.status = some 404) :
    networkDexesHandlerErrorMsg e =
      "Network not found. Please check the network ID and try again." ∧
    containsSub "not found".toList (networkDexesHandlerErrorMsg e).toList = true ∧
    networkDexesHandlerStatusCode e = some 404 := by
  have hmsg : networkDexesHandlerErrorMsg e =
      "Network not found. Please check the network ID and try again." := by
    simp [networkDexesHandlerErrorMsg, h]
  refine ⟨hmsg, ?_, ?_⟩
  · rw [hmsg]; decide
  · simp [networkDexesHandlerStatusCode, h]

/-- C7 (witness): the classification applied to a concrete axios 404. -/
theorem network_dexes_404_classified_witness :
    networkDexesHandlerErrorMsg err404 =
      "Network not found. Please check the network ID and try again." ∧
    containsSub "not found".toList (networkDexesHandlerErrorMsg err404).toList = true ∧
    networkDexesHandlerStatusCode err404 = some 404 :=
  network_dexes_404_classified err404 (by decide)

/-- C8 (confirmed): with every optional parameter omitted, all three
pool-listing operations send exactly
`page=0&limit=10&order_by=volume_usd&sort=desc`; in particular
`getTopPools({})` issues `GET /pools?page=0&limit=10&order_by=volume_usd&sort=desc`. -/
theorem pool_listing_default_query (network dex : String) :
    (getTopPoolsRequest {}).query =
      [("page", "0"), ("limit", "10"), ("order_by", "volume_usd"), ("sort", "desc")] ∧
    (getNetworkPoolsRequest network {}).query = (getTopPoolsRequest {}).query ∧
    (getDexPoolsRequest network dex {}).query = (getTopPoolsRequest {}).query ∧
    renderRequest (getTopPoolsRequest {}) =
      "/pools?page=0&limit=10&order_by=volume_usd&sort=desc" := by
  refine ⟨by decide, rfl, rfl, by decide⟩

/-- C9 (counterexample): on the claim's own example shape, a
*network* identifier is not word-capitalized: only its first character is
upper-cased, underscores included. -/
theorem network_underscore_not_titlecased :
    networkDisplayName "uniswap_v3" = "Uniswap_v3" ∧
    networkDisplayName "uniswap_v3" ≠ "Uniswap V3" := by
  decide

/-- C9 (amended): *dex* identifiers are title-cased per underscore-word
(`formatDexName (a ++ "_" ++ b) = A ++ " " ++ B` for underscore-free
words), while *network* identifiers only get `charAt(0).toUpperCase()`;
path construction always uses the unmodified identifiers. -/
theorem dex_titlecase_network_capitalize (a b network dex : String) (p : ListingParams)
    (ha : '_' ∉ a.toList) (hb : '_' ∉ b.toList) :
    formatDexName (a ++ "_" ++ b) = capitalizeFirst a ++ " " ++ capitalizeFirst b ∧
    networkDisplayName "uniswap_v3" = "Uniswap_v3" ∧
    (getDexPoolsRequest network dex p).path =
      "/networks/" ++ network ++ "/dexes/" ++ dex ++ "/pools" ∧
    (getNetworkPoolsRequest network p).path = "/networks/" ++ network ++ "/pools" := by
  refine ⟨?_, by decide, rfl, rfl⟩
  have htl : (a ++ "_" ++ b).toList = a.toList ++ '_' :: b.toList := by
    show (a ++ "_" ++ b).data = a.data ++ '_' :: b.data
    rw [String.data_append, String.data_append]
    simp [String.data]
  rw [formatDexName, htl, splitUnderscore_append _ _ ha, splitUnderscore_no_sep _ hb]
  rfl

/-- C9 (witness): the amended rule at the claim's example
`"uniswap_v3"`, giving display name `"Uniswap V3"`. -/
theorem dex_titlecase_witness :
    formatDexName ("uniswap" ++ "_" ++ "v3") =
      capitalizeFirst "uniswap" ++ " " ++ capitalizeFirst "v3" ∧
    networkDisplayName "uniswap_v3" = "Uniswap_v3" ∧
    (getDexPoolsRequest "ethereum" "uniswap_v3" {}).path =
      "/networks/" ++ "ethereum" ++ "/dexes/" ++ "uniswap_v3" ++ "/pools" ∧
    (getNetworkPoolsRequest "ethereum" {}).path = "/networks/" ++ "ethereum" ++ "/pools" :=
  dex_titlecase_network_capitalize "uniswap" "v3" "ethereum" "uniswap_v3" {}
    (by decide) (by decide)

/-- C10 (confirmed): both pool-listing formatters number the displayed
pools `1, 2, ..., n` within the response, whatever the requested page:
the formatters never see `page`, and two responses differing only in
`page_info` format their pools identically. -/
theorem listing_positions_are_index_plus_one (pools : List Pool)
    (pi pi' : PageInfo) (network iso ob sd : String) :
    (npFormatPools pools).map NpFormattedPool.position =
      (List.range pools.length).map (· + 1) ∧
    (formatPoolData pools).map FormattedPoolData.position =
      (List.range pools.length).map (· + 1) ∧
    (npHandlerContent network iso ob sd ⟨pools, pi⟩).pools =
      (npHandlerContent network iso ob sd ⟨pools, pi'⟩).pools := by
  refine ⟨mapIdx_positions _ _ _ fun i a => rfl, ?_, rfl⟩
  exact mapIdx_positions _ _ _ fun i a => by simp [Nat.zero_add]

/-- C5 (counterexample): on a concrete ISO instant the stamped timestamp
is `"YYYY-MM-DD at HH:MM"`, not the `"YYYY-MM-DD at HH:MM:SS"` the claim
requires — `substring(0, 19)` is applied after the replacement already
lengthened the string by three characters, so the seconds are cut off. -/
theorem timestamp_drops_seconds :
    formatTimestamp isoSample = "2026-10-11 at 12:34" ∧
    formatTimestamp isoSample ≠ "2026-10-11 at 12:34:56" := by
  decide

/-- C5 (amended): for every ISO instant `DATE ++ "T" ++ REST` with a
10-character `'T'`-free date part, the stamped timestamp is
`DATE ++ " at " ++` the first five characters of `REST`, i.e.
`"YYYY-MM-DD at HH:MM"` with the seconds dropped; every envelope carries
exactly this value for the call's wall-clock instant. -/
theorem timestamp_layout (d rest : List Char) (hd : d.length = 10) (hT : 'T' ∉ d)
    (iso network : String) (resp : PoolsResponse) :
    formatTimestamp (String.mk (d ++ 'T' :: rest)) =
      String.mk (d ++ " at ".toList ++ rest.take 5) ∧
    (getTopPoolsEnvelope iso resp).formatted_response.timestamp = formatTimestamp iso ∧
    (oldGetTopPoolsEnvelope iso resp).formatted_response.timestamp = formatTimestamp iso ∧
    (npHandlerContent network iso "volume_usd" "desc" resp).timestamp = formatTimestamp iso := by
  refine ⟨?_, rfl, rfl, rfl⟩
  show String.mk (formatTimestampChars (d ++ 'T' :: rest)) = _
  unfold formatTimestampChars
  rw [replaceFirstT_past _ _ _ hT, List.take_append_eq_append_take,
    List.take_append_eq_append_take, List.take_of_length_le (by omega), hd]
  simp [List.append_assoc]

/-- C5 (witness): the layout theorem applied to the concrete instant
`2026-10-11T12:34:56.789Z`. -/
theorem timestamp_layout_witness :
    formatTimestamp (String.mk ("2026-10-11".toList ++ 'T' :: "12:34:56.789Z".toList)) =
      String.mk ("2026-10-11".toList ++ " at ".toList ++ "12:34:56.789Z".toList.take 5) ∧
    (getTopPoolsEnvelope isoSample sampleResp6).formatted_response.timestamp =
      formatTimestamp isoSample ∧
    (oldGetTopPoolsEnvelope isoSample sampleResp6).formatted_response.timestamp =
      formatTimestamp isoSample ∧
    (npHandlerContent "ethereum" isoSample "volume_usd" "desc" sampleResp6).timestamp =
      formatTimestamp isoSample :=
  timestamp_layout "2026-10-11".toList "12:34:56.789Z".toList (by decide) (by decide)
    isoSample "ethereum" sampleResp6

/-- C1 (counterexample): on a six-pool upstream body, the `part_001`
`getTopPools` envelope's `raw_data` holds only the first five pools, so it
is not deep-equal to the upstream body. -/
theorem raw_data_truncated_counterexample :
    (getTopPoolsEnvelope isoSample sampleResp6).raw_data.pools.length = 5 ∧
    sampleResp6.pools.length = 6 ∧
    (getTopPoolsEnvelope isoSample sampleResp6).raw_data ≠
      { pools := sampleResp6.pools, page_info := sampleResp6.page_info } := by
  decide

/-- C1 (amended): the `part_001` pool-listing operations put the
`slice(0, 5)` prefix of the upstream pools into `raw_data`, so their
`raw_data` equals the upstream body exactly when the body has at most five
pools; the old-style `getTopPools.execute` and the `search` envelope
return the upstream body verbatim as `raw_data`. -/
theorem raw_data_truncation (iso q network : String) (resp : PoolsResponse) (body : SearchBody) :
    (getTopPoolsEnvelope iso resp).raw_data.pools = resp.pools.take 5 ∧
    (getNetworkPoolsEnvelope network iso resp).raw_data.pools = resp.pools.take 5 ∧
    ((getTopPoolsEnvelope iso resp).raw_data =
        { pools := resp.pools, page_info := resp.page_info } ↔ resp.pools.length ≤ 5) ∧
    (oldGetTopPoolsEnvelope iso resp).raw_data = resp ∧
    (searchFormat q iso body).raw_data = body := by
  refine ⟨rfl, rfl, ?_, rfl, rfl⟩
  constructor
  · intro h
    have hp : resp.pools.take 5 = resp.pools :=
      congrArg RawPoolsData.pools h
    rw [List.take_eq_self_iff] at hp
    exact hp
  · intro h
    show (⟨resp.pools.take 5, resp.page_info⟩ : RawPoolsData) = _
    rw [List.take_of_length_le h]

/-- C6 (counterexample): on a pool with a single token, the
`GET_POOL_DETAILS` handler renders the missing second slot as
`"undefined (undefined)"` in the title — not with the `"Token2"` fallback
the claim requires. -/
theorem pool_details_no_token_fallback :
    gpdPoolTitle onePool = "Ethereum (ETH) - undefined (undefined)" ∧
    containsSub "Token2".toList (gpdPoolTitle onePool).toList = false ∧
    (gpdFormatted "ethereum" "0xabc" onePool).title = gpdPoolTitle onePool := by
  decide

/-- C6 (amended): for a pool whose `tokens` array has fewer than two
entries, no formatter throws (all are total on any `tokens` array), and
the *listing* formatters render the missing slot with the `"Token1"` /
`"Token2"` literals — but `GET_POOL_DETAILS` renders the missing slot as
`"undefined (undefined)"` in its title and as an entry of absent fields
in its token list. -/
theorem short_token_array_fallbacks (pool : Pool) (network addr : String)
    (h : pool.tokens.length < 2) :
    listingPoolName pool = slotSymbol pool.tokens 0 "Token1" ++ "-" ++ "Token2" ∧
    gpdPoolTitle pool = tokenSlotTpl (pool.tokens.get? 0) ++ " - " ++ "undefined (undefined)" ∧
    (gpdFormatted network addr pool).title = gpdPoolTitle pool ∧
    (gpdFormatted network addr pool).tokens =
      [ { name := (pool.tokens.get? 0).map Token.name
        , symbol := (pool.tokens.get? 0).map Token.symbol
        , address := (pool.tokens.get? 0).map Token.id
        , decimals := (pool.tokens.get? 0).map Token.decimals }
      , { name := none, symbol := none, address := none, decimals := none } ] := by
  have h1 : pool.tokens.get? 1 = none := List.get?_eq_none.mpr (by omega)
  refine ⟨?_, ?_, rfl, ?_⟩
  · unfold listingPoolName
    rw [slotSymbol_of_none _ _ _ h1]
  · unfold gpdPoolTitle
    rw [h1]
    rfl
  · unfold gpdFormatted
    rw [h1]
    rfl

/-- C6 (witness): the fallback behaviour on a concrete pool with an empty
`tokens` array. -/
theorem short_token_array_fallbacks_witness :
    listingPoolName noTokenPool =
      slotSymbol noTokenPool.tokens 0 "Token1" ++ "-" ++ "Token2" ∧
    gpdPoolTitle noTokenPool =
      tokenSlotTpl (noTokenPool.tokens.get? 0) ++ " - " ++ "undefined (undefined)" ∧
    (gpdFormatted "ethereum" "0xabc" noTokenPool).title = gpdPoolTitle noTokenPool ∧
    (gpdFormatted "ethereum" "0xabc" noTokenPool).tokens =
      [ { name := (noTokenPool.tokens.get? 0).map Token.name
        , symbol := (noTokenPool.tokens.get? 0).map Token.symbol
        , address := (noTokenPool.tokens.get? 0).map Token.id
        , decimals := (noTokenPool.tokens.get? 0).map Token.decimals }
      , { name := none, symbol := none, address := none, decimals := none } ] :=
  short_token_array_fallbacks noTokenPool "ethereum" "0xabc" (by decide)

/-- C3 (counterexample): `part_001`'s validated `search` violates the
one-request rule in both directions on concrete inputs: with every call
succeeding it still issues two GETs (the debug direct call plus the client
call), and when the client call fails it issues a third, fallback GET
whose success is returned as the operation's (bare) result — a retry that
turns a failed call into a success. -/
theorem search_request_count_counterexample :
    (part1SearchRun "eth" isoSample (.ok emptyBody) (.ok emptyBody) (.ok emptyBody)).1.length = 2 ∧
    (part1SearchRun "eth" isoSample (.ok emptyBody) (.fail err500) (.ok emptyBody)).1.length = 3 ∧
    (part1SearchRun "eth" isoSample (.ok emptyBody) (.fail err500) (.ok emptyBody)).2 =
      .bare emptyBody := by
  decide

/-- C3 (amended): every operation except `part_001`'s validated `search`
issues exactly one outbound GET per invocation with no retry; that
`search`, on a valid query, issues two GETs on the success path and,
when the client call fails, a third fallback GET whose success resolves
the operation. -/
theorem single_request_per_invocation
    (network dex tokenAddress poolAddress : String) (page limit : Option Nat)
    (inversed : Option Bool) (p : ListingParams) (query iso : String)
    (direct fallback client : HttpResult) (body : SearchBody) (e : AxiosHttpError)
    (hq : 3 ≤ (jsTrim query).length) :
    getNetworksRequests.length = 1 ∧
    (getNetworkDexesRequests network page limit).length = 1 ∧
    (getTopPoolsRequests p).length = 1 ∧
    (getNetworkPoolsRequests network p).length = 1 ∧
    (getDexPoolsRequests network dex p).length = 1 ∧
    (getPoolDetailsRequests network poolAddress inversed).length = 1 ∧
    (getTokenDetailsRequests network tokenAddress).length = 1 ∧
    getStatsRequests.length = 1 ∧
    (oldSearchRun query iso client).1.length = 1 ∧
    (part1SearchRun query iso direct (.ok body) fallback).1.length = 2 ∧
    (part1SearchRun query iso direct (.fail e) (.ok body)).1.length = 3 ∧
    (part1SearchRun query iso direct (.fail e) (.ok body)).2 = .bare body := by
  have hne : ¬(query = "" ∨ jsTrim query = "") := by
    rintro (h | h)
    · rw [h] at hq
      exact absurd hq (by decide)
    · rw [h] at hq
      exact absurd hq (by decide)
  have hlt : ¬((jsTrim query).length < 3) := by omega
  refine ⟨rfl, rfl, rfl, rfl, rfl, rfl, rfl, rfl, rfl, ?_, ?_, ?_⟩ <;>
    simp only [part1SearchRun, if_neg hne, if_neg hlt] <;> rfl

/-- C3 (witness): the amended statement at concrete inputs. -/
theorem single_request_per_invocation_witness :
    getNetworksRequests.length = 1 ∧
    (getNetworkDexesRequests "ethereum" none none).length = 1 ∧
    (getTopPoolsRequests {}).length = 1 ∧
    (getNetworkPoolsRequests "ethereum" {}).length = 1 ∧
    (getDexPoolsRequests "ethereum" "uniswap_v3" {}).length = 1 ∧
    (getPoolDetailsRequests "ethereum" "0xabc" none).length = 1 ∧
    (getTokenDetailsRequests "ethereum" "eth").length = 1 ∧
    getStatsRequests.length = 1 ∧
    (oldSearchRun "uni" isoSample (.ok emptyBody)).1.length = 1 ∧
    (part1SearchRun "uni" isoSample (.ok emptyBody) (.ok emptyBody) (.ok emptyBody)).1.length = 2 ∧
    (part1SearchRun "uni" isoSample (.ok emptyBody) (.fail err500) (.ok emptyBody)).1.length = 3 ∧
    (part1SearchRun "uni" isoSample (.ok emptyBody) (.fail err500) (.ok emptyBody)).2 =
      .bare emptyBody :=
  single_request_per_invocation "ethereum" "uniswap_v3" "eth" "0xabc" none none none {}
    "uni" isoSample (.ok emptyBody) (.ok emptyBody) (.ok emptyBody) emptyBody err500
    (by decide)

/-- C4 (counterexample): on the claim's own example `search("uni")`,
`part_001`'s validated `search` issues two calls, not exactly one; and the
old-style `search.execute` issues a call even for the 2-character query
`"ab"` that the claim requires to be rejected before any HTTP request. -/
theorem search_not_single_call_counterexample :
    (part1SearchRun "uni" isoSample (.ok emptyBody) (.ok emptyBody) (.ok emptyBody)).1.length = 2 ∧
    (part1SearchRun "uni" isoSample (.ok emptyBody) (.ok emptyBody) (.ok emptyBody)).1.length ≠ 1 ∧
    (oldSearchRun "ab" isoSample (.ok emptyBody)).1 ≠ [] := by
  decide

/-- C4 (amended): `part_001`'s validated `search` rejects queries that are
empty or shorter than three characters after trimming with a descriptive
error before issuing any HTTP request; for a valid query it issues *two*
calls to `/search` carrying that query (the debug direct call plus the
client call), not one.  The old-style `search.execute` performs no
validation and always issues exactly one call. -/
theorem search_validation (query iso : String) (direct client fallback : HttpResult)
    (body : SearchBody) :
    ((jsTrim query).length < 3 →
      (part1SearchRun query iso direct client fallback).1 = [] ∧
      ∃ msg, (part1SearchRun query iso direct client fallback).2 = .failure msg) ∧
    (3 ≤ (jsTrim query).length →
      (part1SearchRun query iso direct (.ok body) fallback).1 =
        [searchRequest query, searchRequest query]) ∧
    (oldSearchRun query iso client).1 = [searchRequest query] := by
  refine ⟨fun h => ?_, fun h => ?_, rfl⟩
  · by_cases h0 : query = "" ∨ jsTrim query = ""
    · have heq : part1SearchRun query iso direct client fallback =
          ([], .failure "Unexpected error: Search query cannot be empty. Please try again with a different search term.") := by
        simp only [part1SearchRun, if_pos h0]
      exact ⟨by rw [heq], _, by rw [heq]⟩
    · have heq : part1SearchRun query iso direct client fallback =
          ([], .failure "Unexpected error: Search query must be at least 3 characters long. Please try again with a different search term.") := by
        simp only [part1SearchRun, if_neg h0, if_pos h]
      exact ⟨by rw [heq], _, by rw [heq]⟩
  · have h0 : ¬(query = "" ∨ jsTrim query = "") := by
      rintro (h0 | h0) <;> rw [h0] at h <;> exact absurd h (by decide)
    have hlt : ¬((jsTrim query).length < 3) := by omega
    simp only [part1SearchRun, if_neg h0, if_neg hlt]

/-- C4 (witness): the validation rule at the claim's own examples —
`"ab"` and the whitespace-only query reject with no request issued,
`"uni"` issues its `/search` calls carrying `query=uni`. -/
theorem search_validation_witness :
    (part1SearchRun "ab" isoSample (.ok emptyBody) (.ok emptyBody) (.ok emptyBody)).1 = [] ∧
    (part1SearchRun "  " isoSample (.ok emptyBody) (.ok emptyBody) (.ok emptyBody)).1 = [] ∧
    (part1SearchRun "uni" isoSample (.ok emptyBody) (.ok emptyBody) (.ok emptyBody)).1 =
      [searchRequest "uni", searchRequest "uni"] :=
  ⟨((search_validation "ab" isoSample (.ok emptyBody) (.ok emptyBody) (.ok emptyBody)
      emptyBody).1 (by decide)).1,
   ((search_validation "  " isoSample (.ok emptyBody) (.ok emptyBody) (.ok emptyBody)
      emptyBody).1 (by decide)).1,
   (search_validation "uni" isoSample (.ok emptyBody) (.ok emptyBody) (.ok emptyBody)
      emptyBody).2.1 (by decide)⟩

end DexPaprika
